import Mathlib

/-
Verification of the notation-segmentation and lyric-alignment core of
choir2anki (src/choir2anki.py) against its natural-language specification.

The Python functions are shallowly embedded as Lean functions:

  * create_normal_lyrics     (choir2anki.py lines 148-164)
  * create_lyric_slice       (choir2anki.py lines 166-177)
  * count_singable_notes     (choir2anki.py lines 179-199)
  * create_normal_note_shards(choir2anki.py lines 264-291, the splitting
    loop; the external abjad parser that produces the normalized token
    list and the per-segment lengths is outside this repository, so those
    two lists are taken as the inputs of the embedded function)

Python strings are Lean String; Python str.split() (split on whitespace
runs, dropping empty pieces) is the function tokenize below; Python list
indexing errors (words[-1] on an empty list) and non-termination of the
comment-absorption while-loop are modelled by Option, with none standing
for the abnormal outcome.
-/

/-- Python str.split() with no arguments: split on runs of whitespace,
dropping empty pieces.  Implemented by structural recursion over the
character list so that concrete inputs evaluate inside the kernel. -/
def splitWsAux : List Char → List Char → List String
  | [], acc => if acc = [] then [] else [String.mk acc.reverse]
  | c :: cs, acc =>
    if c.isWhitespace then
      (if acc = [] then [] else [String.mk acc.reverse]) ++ splitWsAux cs []
    else
      splitWsAux cs (c :: acc)

/-- Tokenize a lilypond string the way Python tokenizes it, with str.split(). -/
def tokenize (s : String) : List String :=
  splitWsAux s.data []

/-- Python t.endswith(c) for a one-character suffix c: the last character
of t is c (False on the empty string). -/
def lastCharIs (t : String) (c : Char) : Bool :=
  match t.data.getLast? with
  | some d => d == c
  | none => false

/-- Python re.match applied with pattern matching one leading character of
the class a-g (choir2anki.py line 195): the first character of t lies
between the letters a and g. -/
def pitchStart (t : String) : Bool :=
  match t.data with
  | [] => false
  | c :: _ => decide ('a' ≤ c ∧ c ≤ 'g')

/-- Python x.startswith three percent signs (choir2anki.py lines 283 and 288):
the token is a structural comment inserted by the normalizer. -/
def isComment (t : String) : Bool :=
  match t.data with
  | '%' :: '%' :: '%' :: _ => true
  | _ => false

/- ----------------------------------------------------------------
create_normal_lyrics (choir2anki.py lines 148-164)
---------------------------------------------------------------- -/

/-- State of the loop in create_normal_lyrics: the join_next flag and the
words accumulated so far, in order. -/
structure LState where
  joinNext : Bool
  words : List String
deriving DecidableEq, Repr

/-- Python words[-1] += t: append t to the last element of the list; the
empty list has no last element and Python raises IndexError, modelled by
none. -/
def appendToLast : List String → String → Option (List String)
  | [], _ => none
  | [w], t => some [w ++ t]
  | w :: ws, t => (appendToLast ws t).map (fun l => w :: l)

/-- One iteration of the loop body of create_normal_lyrics
(choir2anki.py lines 154-163). -/
def lyricStep (s : LState) (t : String) : Option LState :=
  if t = "__" then some s
  else if t = "--" then some ⟨true, s.words⟩
  else if s.joinNext then
    match appendToLast s.words t with
    | some ws => some ⟨false, ws⟩
    | none => none
  else
    some ⟨s.joinNext, s.words ++ [t]⟩

/-- The loop of create_normal_lyrics over a token list, returning the
final word list ("raising" none if any iteration raises). -/
def normGoTokens : LState → List String → Option (List String)
  | s, [] => some s.words
  | s, t :: ts =>
    match lyricStep s t with
    | some s2 => normGoTokens s2 ts
    | none => none

/-- choir2anki.py lines 148-164: form normal words from lilypond-tokenized
lyrics.  Returns none exactly when the Python function raises IndexError. -/
def create_normal_lyrics (lilypond_lyrics : String) : Option String :=
  (normGoTokens ⟨false, []⟩ (tokenize lilypond_lyrics)).map (String.intercalate " ")

/- ----------------------------------------------------------------
create_lyric_slice (choir2anki.py lines 166-177)
---------------------------------------------------------------- -/

/-- The loop of create_lyric_slice (choir2anki.py lines 172-176): walk the
tokens with a running syllable counter c, include a token when
slice_start <= c < slice_end, and increment the counter after every token
other than the join marker. -/
def sliceGo (slice_start slice_end : Nat) : List String → Nat → List String
  | [], _ => []
  | t :: ts, c =>
    (if slice_start ≤ c ∧ c < slice_end then [t] else []) ++
      sliceGo slice_start slice_end ts (if t = "--" then c else c + 1)

/-- choir2anki.py lines 166-177: create a piece of lyrics that spans the
given interval. -/
def create_lyric_slice (lilypond_lyrics : String) (slice_start slice_end : Nat) : String :=
  String.intercalate " " (sliceGo slice_start slice_end (tokenize lilypond_lyrics) 0)

/-- Each token of the list paired with the syllable position the loop of
create_lyric_slice sees when it processes that token: the number of
tokens before it that are not the join marker, offset by the counter c. -/
def annotatePos : List String → Nat → List (String × Nat)
  | [], _ => []
  | t :: ts, c => (t, c) :: annotatePos ts (if t = "--" then c else c + 1)

/-- Number of tokens that are not the join marker; every syllable position
assigned by annotatePos from counter 0 is at most this number. -/
def countNonJoin (tokens : List String) : Nat :=
  (tokens.filter (fun t => t ≠ "--")).length

/- ----------------------------------------------------------------
count_singable_notes (choir2anki.py lines 179-199)
---------------------------------------------------------------- -/

/-- State of the loop in count_singable_notes: the running count, the
open-parenthesis (portamento) depth — a Python int, which may go
negative — and the pending-tie flag. -/
structure CState where
  count : Nat
  open_parens : Int
  next_is_tie : Bool
deriving DecidableEq, Repr

/-- One iteration of the loop body of count_singable_notes
(choir2anki.py lines 184-198), in the source's order: close-parenthesis
handling first (decrement depth, bonus count when depth reaches 0), then
the pending-tie shortcut, then tie setting, pitch counting at depth 0 and
open-parenthesis handling. -/
def countStep (s : CState) (t : String) : CState :=
  let p1 : Int := if lastCharIs t ')' = true then s.open_parens - 1 else s.open_parens
  let c1 : Nat := if lastCharIs t ')' = true ∧ p1 = 0 then s.count + 1 else s.count
  if s.next_is_tie then
    ⟨c1, p1, lastCharIs t '~'⟩
  else
    let c2 : Nat := if p1 = 0 ∧ pitchStart t = true then c1 + 1 else c1
    let p2 : Int := if lastCharIs t '(' = true then p1 + 1 else p1
    ⟨c2, p2, lastCharIs t '~'⟩

/-- The loop of count_singable_notes over the whole token list. -/
def countFold (tokens : List String) (s : CState) : CState :=
  tokens.foldl countStep s

/-- count_singable_notes on an already tokenized input: run the loop from
count 0, the given initial parenthesis depth and no pending tie, and
return only the final count — the final depth and tie flag are discarded,
as in the source. -/
def countSingableTokens (tokens : List String) (open_parantheses : Int) : Nat :=
  (countFold tokens ⟨0, open_parantheses, false⟩).count

/-- choir2anki.py lines 179-199: count the singable notes of a lilypond
token string, starting from the given open-parenthesis depth. -/
def count_singable_notes (lilypond_notes : String) (open_parantheses : Int) : Nat :=
  countSingableTokens (tokenize lilypond_notes) open_parantheses

/- ----------------------------------------------------------------
create_normal_note_shards (choir2anki.py lines 264-291)

The function first calls the external abjad parser to normalize the whole
note line (giving the token list normalized_notes) and to compute the
per-segment token counts (giving shard_lengths).  That parser is a
third-party dependency, not code of this repository, so the embedded
function takes those two lists as its inputs and models the splitting
loop of lines 279-291 exactly.
---------------------------------------------------------------- -/

/-- Number of structural-comment tokens in a list, as computed at
choir2anki.py lines 283 and 288. -/
def countComments (xs : List String) : Nat :=
  xs.countP isComment

/-- The inner while-loop of create_normal_note_shards
(choir2anki.py lines 285-289), with fuel.  State: the shard built so far,
the remaining normalized tokens, num_comments_found (recomputed over the
whole shard each round) and num_comments_compensated.  Each productive
round takes the next num_comments_found tokens; when the loop guard holds
but no token can be taken the Python loop runs forever, which is modelled
by none.  The wrapper absorbGo below supplies fuel that is provably never
exhausted before one of those two outcomes, so none means divergence. -/
def absorbGoF : Nat → List String → List String → Nat → Nat → Option (List String × List String)
  | 0, _, _, _, _ => none
  | fuel + 1, shard, norm, found, comp =>
    if found = comp then some (shard, norm)
    else
      let addition := norm.take found
      if addition = [] then none
      else
        absorbGoF fuel (shard ++ addition) (norm.drop found)
          (countComments (shard ++ addition)) (comp + addition.length)

/-- The comment-absorption loop started on a shard with the remaining
normalized tokens; found is the comment count of the shard and comp
starts at 0, as at choir2anki.py lines 283-284. -/
def absorbGo (shard norm : List String) (found : Nat) : Option (List String × List String) :=
  absorbGoF (norm.length + 1) shard norm found 0

/-- The splitting loop of create_normal_note_shards
(choir2anki.py lines 279-290): for each per-segment length, take that many
normalized tokens, run the comment-absorption loop, and emit the shard.
Normalized tokens remaining after the last segment are dropped, exactly
as in the source. -/
def splitShards : List Nat → List String → Option (List (List String))
  | [], _ => some []
  | l :: ls, norm =>
    let shard0 := norm.take l
    match absorbGo shard0 (norm.drop l) (countComments shard0) with
    | none => none
    | some (shard, rest) =>
      match splitShards ls rest with
      | none => none
      | some shards => some (shard :: shards)

/-- choir2anki.py lines 264-291 with the two abjad-parser results as
inputs: the shard token lists of splitShards, each joined with single
spaces (line 290). -/
def create_normal_note_shards (normalized_notes : List String) (shard_lengths : List Nat) :
    Option (List String) :=
  (splitShards shard_lengths normalized_notes).map (List.map (String.intercalate " "))


/- ----------------------------------------------------------------
Shared helper lemmas
---------------------------------------------------------------- -/

/-- The loop of create_lyric_slice keeps exactly the tokens whose syllable
position, as assigned by annotatePos from the same counter, lies in the
half-open window. -/
theorem sliceGo_eq_filter (s e : Nat) :
    ∀ (tokens : List String) (c : Nat),
      sliceGo s e tokens c =
        ((annotatePos tokens c).filter (fun p => decide (s ≤ p.2 ∧ p.2 < e))).map Prod.fst := by
  intro tokens
  induction tokens with
  | nil => intro c; simp [sliceGo, annotatePos]
  | cons t ts ih =>
    intro c
    by_cases h : s ≤ c ∧ c < e
    · simp [sliceGo, annotatePos, List.filter_cons, h, ih]
    · simp [sliceGo, annotatePos, List.filter_cons, h, ih]

/-- Every syllable position assigned by annotatePos from counter c is at
most c plus the number of non-join tokens. -/
theorem annotatePos_pos_le :
    ∀ (tokens : List String) (c : Nat) (p : String × Nat),
      p ∈ annotatePos tokens c → p.2 ≤ c + countNonJoin tokens := by
  intro tokens
  induction tokens with
  | nil => intro c p hp; simp [annotatePos] at hp
  | cons t ts ih =>
    intro c p hp
    simp only [annotatePos, List.mem_cons] at hp
    rcases hp with hp | hp
    · subst hp; exact Nat.le_add_right c _
    · by_cases ht : t = "--"
      · have := ih c p (by simpa [ht] using hp)
        simp only [countNonJoin, List.filter_cons, ht]
        simpa [countNonJoin] using this
      · have := ih (c + 1) p (by simpa [ht] using hp)
        simp only [countNonJoin, List.filter_cons, ht]
        simp only [countNonJoin] at this
        simp only [if_pos (by simp [ht] : (decide ¬t = "--") = true), List.length_cons]
        omega

/-- Appending a character string to the last element of a nonempty list
succeeds and does exactly that. -/
theorem appendToLast_concat (ws : List String) (w t : String) :
    appendToLast (ws ++ [w]) t = some (ws ++ [w ++ t]) := by
  induction ws with
  | nil => simp [appendToLast]
  | cons x xs ih =>
    cases xs with
    | nil => simp [appendToLast]
    | cons y ys => simp [appendToLast, List.cons_append] at ih ⊢; simp [ih]

/-- When the fueled absorption loop returns, the shard built and the
remaining tokens together are exactly the shard and tokens it started
from: the loop moves tokens, never invents, duplicates or reorders them. -/
theorem absorbGoF_append :
    ∀ (fuel : Nat) (shard norm : List String) (found comp : Nat)
      (shard2 rest : List String),
      absorbGoF fuel shard norm found comp = some (shard2, rest) →
      shard2 ++ rest = shard ++ norm := by
  intro fuel
  induction fuel with
  | zero => intro shard norm found comp shard2 rest h; simp [absorbGoF] at h
  | succ n ih =>
    intro shard norm found comp shard2 rest h
    simp only [absorbGoF] at h
    by_cases hfc : found = comp
    · simp [hfc] at h
      rw [h.1, h.2]
    · simp only [if_neg hfc] at h
      by_cases ha : norm.take found = []
      · simp [ha] at h
      · simp only [if_neg ha] at h
        have := ih _ _ _ _ _ _ h
        rw [this, List.append_assoc, List.take_append_drop]

/-- The unfueled statement of absorbGoF_append, at the fuel the program
uses. -/
theorem absorbGo_append (shard norm : List String) (found : Nat)
    (shard2 rest : List String) (h : absorbGo shard norm found = some (shard2, rest)) :
    shard2 ++ rest = shard ++ norm :=
  absorbGoF_append _ _ _ _ _ _ _ h

/-- When the splitting loop returns, the concatenation of the shards it
produced is a prefix of the normalized token list it consumed. -/
theorem splitShards_front :
    ∀ (lengths : List Nat) (norm : List String) (shards : List (List String)),
      splitShards lengths norm = some shards →
      ∃ rest, shards.flatten ++ rest = norm := by
  intro lengths
  induction lengths with
  | nil =>
    intro norm shards h
    simp only [splitShards, Option.some.injEq] at h
    refine ⟨norm, ?_⟩
    rw [← h]
    simp
  | cons l ls ih =>
    intro norm shards h
    simp only [splitShards] at h
    split at h
    · exact absurd h (by simp)
    next shard rest0 habs =>
      split at h
      · exact absurd h (by simp)
      next shards2 hsp =>
        simp only [Option.some.injEq] at h
        obtain ⟨rest, hrest⟩ := ih rest0 shards2 hsp
        have hs0 : shard ++ rest0 = norm.take l ++ norm.drop l :=
          absorbGo_append _ _ _ _ _ habs
        refine ⟨rest, ?_⟩
        rw [← h]
        simp only [List.flatten_cons, List.append_assoc]
        rw [hrest, hs0, List.take_append_drop]

/-- A shard with no structural comments needs no absorption: the loop
returns at once. -/
theorem absorbGo_zero (shard norm : List String) :
    absorbGo shard norm 0 = some (shard, norm) := by
  simp [absorbGo, absorbGoF]

/-- A list with no structural comments has comment count 0. -/
theorem countComments_eq_zero (xs : List String) (h : ∀ x ∈ xs, isComment x = false) :
    countComments xs = 0 := by
  simp only [countComments, List.countP_eq_zero]
  intro a ha
  simp [h a ha]

/-- On comment-free input the splitting loop always returns, whatever the
per-segment lengths are. -/
theorem splitShards_noComments_isSome :
    ∀ (lengths : List Nat) (norm : List String),
      (∀ x ∈ norm, isComment x = false) →
      ∃ shards, splitShards lengths norm = some shards := by
  intro lengths
  induction lengths with
  | nil => intro norm _; exact ⟨[], by simp [splitShards]⟩
  | cons l ls ih =>
    intro norm h
    have h0 : countComments (norm.take l) = 0 :=
      countComments_eq_zero _ (fun x hx => h x (List.take_subset l norm hx))
    have hdrop : ∀ x ∈ norm.drop l, isComment x = false :=
      fun x hx => h x (List.drop_subset l norm hx)
    obtain ⟨shards, hs⟩ := ih (norm.drop l) hdrop
    exact ⟨norm.take l :: shards, by simp [splitShards, h0, absorbGo_zero, hs]⟩

/-- On comment-free input whose per-segment lengths sum to the input
length, the splitting loop returns shards whose concatenation is exactly
the input. -/
theorem splitShards_noComments_exact :
    ∀ (lengths : List Nat) (norm : List String),
      (∀ x ∈ norm, isComment x = false) →
      lengths.sum = norm.length →
      ∃ shards, splitShards lengths norm = some shards ∧ shards.flatten = norm := by
  intro lengths
  induction lengths with
  | nil =>
    intro norm _ hsum
    simp only [List.sum_nil] at hsum
    have : norm = [] := List.length_eq_zero.mp hsum.symm
    subst this
    exact ⟨[], by simp [splitShards], by simp⟩
  | cons l ls ih =>
    intro norm h hsum
    have h0 : countComments (norm.take l) = 0 :=
      countComments_eq_zero _ (fun x hx => h x (List.take_subset l norm hx))
    have hdrop : ∀ x ∈ norm.drop l, isComment x = false :=
      fun x hx => h x (List.drop_subset l norm hx)
    simp only [List.sum_cons] at hsum
    have hlen : ls.sum = (norm.drop l).length := by
      simp only [List.length_drop]
      omega
    obtain ⟨shards, hs, hj⟩ := ih (norm.drop l) hdrop hlen
    refine ⟨norm.take l :: shards, by simp [splitShards, h0, absorbGo_zero, hs], ?_⟩
    simp [hj]

/-- Over tokens that end in none of the three special suffixes, the
counting loop started at depth 0 with no pending tie adds exactly the
number of pitch-initial tokens and returns to the same depth and flag. -/
theorem countFold_plain :
    ∀ (tokens : List String),
      (∀ t ∈ tokens, lastCharIs t ')' = false ∧ lastCharIs t '(' = false ∧
        lastCharIs t '~' = false) →
      ∀ n : Nat, countFold tokens ⟨n, 0, false⟩ =
        ⟨n + (tokens.filter pitchStart).length, 0, false⟩ := by
  intro tokens
  induction tokens with
  | nil => intro _ n; simp [countFold]
  | cons t ts ih =>
    intro h n
    obtain ⟨h1, h2, h3⟩ := h t (List.mem_cons_self t ts)
    have hts := fun x hx => h x (List.mem_cons_of_mem t hx)
    simp only [countFold, List.foldl_cons] at ih ⊢
    cases hp : pitchStart t with
    | true =>
      have hstep : countStep ⟨n, 0, false⟩ t = ⟨n + 1, 0, false⟩ := by
        simp [countStep, h1, h2, h3, hp]
      rw [hstep, ih hts (n + 1)]
      simp only [List.filter_cons, hp, if_true, List.length_cons, CState.mk.injEq,
        and_true]
      omega
    | false =>
      have hstep : countStep ⟨n, 0, false⟩ t = ⟨n, 0, false⟩ := by
        simp [countStep, h1, h2, h3, hp]
      rw [hstep, ih hts n]
      simp [List.filter_cons, hp]

/- ----------------------------------------------------------------
Claim theorems
---------------------------------------------------------------- -/

/-- Claim C1, counterexample.  The claim says the slicer's window has true
count (end - start) + 1, so that slice(["one","two","three","four"], 1, 3)
keeps the syllables at positions 1, 2 and 3 and returns "two three four".
The loop at choir2anki.py line 173 tests syllable_counter < slice_end
strictly, so the window is the plain half-open interval and the call
returns "two three": the result differs from the claimed one.  (The one
extra syllable is added by the caller in main, line 319, which passes
slice_end = start + count + 1 — it is not part of create_lyric_slice.) -/
theorem c1_slice_window_cex :
    create_lyric_slice "one two three four" 1 3 = "two three" ∧
    create_lyric_slice "one two three four" 1 3 ≠ "two three four" := by
  constructor
  · decide
  · decide

/-- Claim C1, amended.  create_lyric_slice keeps exactly the tokens whose
singable-syllable position lies in the half-open window
[slice_start, slice_end), whose true count is slice_end - slice_start
(no over-inclusion); on ["one","two","three","four"] the call with
start 1 and end 3 keeps positions 1 and 2, giving "two three". -/
theorem c1_slice_window_amended :
    (∀ (tokens : List String) (s e : Nat),
      sliceGo s e tokens 0 =
        ((annotatePos tokens 0).filter (fun p => decide (s ≤ p.2 ∧ p.2 < e))).map Prod.fst) ∧
    create_lyric_slice "one two three four" 1 3 = "two three" :=
  ⟨fun tokens s e => sliceGo_eq_filter s e tokens 0, by decide⟩

/-- Claim C2, counterexample.  The claim says count_singable_notes on
["c4(", "d8", "e8)"] yields count 1.  Running the loop of
choir2anki.py lines 184-198 gives 3: the opening token counts as a pitch
at depth 0 before the depth is incremented, closing the group back to
depth 0 adds the melisma bonus of line 189, and the closing token is then
counted once more by the pitch test of line 195, which already sees
depth 0. -/
theorem c2_portamento_count_cex :
    countSingableTokens ["c4(", "d8", "e8)"] 0 ≠ 1 := by
  decide

/-- Claim C2, amended.  On ["c4(", "d8", "e8)"] with initial depth 0 the
counter returns 3, and the final internal state has open-parenthesis
depth 0 and no pending tie; the function returns only the integer count —
the final depth exists only in the discarded loop state and is not part
of the return value. -/
theorem c2_portamento_count_amended :
    countFold ["c4(", "d8", "e8)"] ⟨0, 0, false⟩ = ⟨3, 0, false⟩ ∧
    count_singable_notes "c4( d8 e8)" 0 = 3 := by
  constructor
  · decide
  · decide

/-- Claim C3, counterexample.  The claim says the token-wise concatenation
of the shards always equals the full normalized sequence with no token
dropped.  With normalized tokens ["c4", "%%%t"] (one note followed by one
structural comment, as the abjad normalizer produces for a trailing meter
change) and the matching per-segment length list [1] (one note in the one
segment, so the lengths do account for every non-comment token), the
splitter returns the single shard ["c4"]: the comment-absorption loop of
lines 285-289 never fires because the nominal shard contains no comment,
and the trailing comment is silently dropped. -/
theorem c3_reconstruction_cex :
    splitShards [1] ["c4", "%%%t"] = some [["c4"]] ∧
    ([["c4"]] : List (List String)).flatten ≠ ["c4", "%%%t"] := by
  constructor
  · decide
  · decide

/-- Claim C3, amended.  Whenever the splitter returns, the token-wise
concatenation of its shards is an initial segment of the full normalized
sequence — no token is duplicated, invented or reordered, but a trailing
run of tokens may be dropped; the concatenation equals the full sequence
exactly when, in addition, the normalized sequence contains no structural
comments and the per-segment lengths sum to its length. -/
theorem c3_reconstruction_amended (lengths : List Nat) (norm : List String)
    (shards : List (List String)) (h : splitShards lengths norm = some shards) :
    (∃ rest, shards.flatten ++ rest = norm) ∧
    ((∀ x ∈ norm, isComment x = false) → lengths.sum = norm.length →
      shards.flatten = norm) := by
  refine ⟨splitShards_front lengths norm shards h, fun hc hs => ?_⟩
  obtain ⟨shards2, h2, hf⟩ := splitShards_noComments_exact lengths norm hc hs
  rw [h] at h2
  injection h2 with h3
  rw [h3]
  exact hf

/-- Claim C3, witness for the amended theorem: splitting ["a","b","c"]
with lengths [2, 1] reconstructs the whole sequence. -/
theorem c3_reconstruction_amended_witness :
    ([["a", "b"], ["c"]] : List (List String)).flatten = ["a", "b", "c"] :=
  (c3_reconstruction_amended [2, 1] ["a", "b", "c"] [["a", "b"], ["c"]]
    (by decide)).2 (by decide) (by decide)

/-- Claim C4, counterexample.  The claim says the splitter raises
SegmentCountMismatchError when the per-segment lengths do not sum to the
normalized length, never silently truncating or padding.  No such check
or error exists at choir2anki.py lines 279-291: a length of 5 against the
two-token sequence ["a","b"] returns the silently truncated shard
["a","b"], and a length list [1] against the same sequence returns
[["a"]], silently dropping "b" — both calls complete normally. -/
theorem c4_mismatch_cex :
    splitShards [5] ["a", "b"] = some [["a", "b"]] ∧
    splitShards [1] ["a", "b"] = some [["a"]] := by
  constructor
  · decide
  · decide

/-- Claim C4, amended.  The splitter performs no length-consistency check:
on comment-free input it returns normally for every length list; a
too-large segment length yields the shorter remaining tokens, and tokens
remaining after all segments are consumed are dropped without any error. -/
theorem c4_mismatch_amended (lengths : List Nat) (norm : List String)
    (h : ∀ x ∈ norm, isComment x = false) :
    (splitShards lengths norm).isSome = true ∧
    splitShards [5] ["a", "b"] = some [["a", "b"]] ∧
    splitShards [1] ["a", "b"] = some [["a"]] := by
  obtain ⟨shards, hs⟩ := splitShards_noComments_isSome lengths norm h
  exact ⟨by simp [hs], by decide, by decide⟩

/-- Claim C4, witness for the amended theorem, at a mismatched length
list. -/
theorem c4_mismatch_amended_witness :
    (splitShards [5] ["a", "b"]).isSome = true ∧
    splitShards [5] ["a", "b"] = some [["a", "b"]] ∧
    splitShards [1] ["a", "b"] = some [["a"]] :=
  c4_mismatch_amended [5] ["a", "b"] (by decide)

/-- Claim C5, counterexample.  The claim says a token consumed under a
pending tie adds nothing to the count.  The close-parenthesis handling of
choir2anki.py lines 185-189 runs before the pending-tie shortcut of
lines 190-192, so a tie-consumed token that closes a portamento group to
depth 0 still increments the count: after ["c4(", "d4~"] the loop state
is count 1, depth 1, tie pending, and feeding the tie-consumed token
"e4)" raises the count to 2 — as the full run on ["c4(", "d4~", "e4)"]
confirms. -/
theorem c5_tie_cex :
    countFold ["c4(", "d4~"] ⟨0, 0, false⟩ = ⟨1, 1, true⟩ ∧
    (countStep ⟨1, 1, true⟩ "e4)").count = 2 ∧
    countSingableTokens ["c4(", "d4~", "e4)"] 0 = 2 := by
  refine ⟨by decide, by decide, by decide⟩

/-- Claim C5, amended.  A token consumed under a pending tie is never
counted by the pitch test and the pending-tie flag becomes whether that
token itself ends with the tie suffix (ties chain), but the
close-parenthesis rule still runs first: the count additionally grows by
one exactly when the token closes the portamento depth from 1 to 0.  In
particular count_singable_notes on ["c4~", "c8"] returns 1. -/
theorem c5_tie_amended (s : CState) (t : String) (h : s.next_is_tie = true) :
    countStep s t =
      ⟨s.count + (if lastCharIs t ')' = true ∧ s.open_parens = 1 then 1 else 0),
        s.open_parens - (if lastCharIs t ')' = true then 1 else 0),
        lastCharIs t '~'⟩ ∧
    countSingableTokens ["c4~", "c8"] 0 = 1 := by
  refine ⟨?_, by decide⟩
  simp only [countStep, h, if_true]
  by_cases hc : lastCharIs t ')' = true
  · simp only [hc, if_true, true_and]
    by_cases h1 : s.open_parens = 1
    · simp [h1]
    · have hne : ¬(s.open_parens - 1 = 0) := by omega
      simp [hne, h1]
  · simp [hc]

/-- Claim C5, witness for the amended theorem, at the reachable state
count 1, depth 1, pending tie, with the closing token "e4)". -/
theorem c5_tie_amended_witness :
    countStep ⟨1, 1, true⟩ "e4)" =
      ⟨1 + (if lastCharIs "e4)" ')' = true ∧ (1 : Int) = 1 then 1 else 0),
        1 - (if lastCharIs "e4)" ')' = true then 1 else 0),
        lastCharIs "e4)" '~'⟩ ∧
    countSingableTokens ["c4~", "c8"] 0 = 1 :=
  c5_tie_amended ⟨1, 1, true⟩ "e4)" rfl

/-- Claim C6 (confirmed).  On a segment whose tokens carry no tie suffix
and no portamento marker, count_singable_notes started at depth 0 returns
exactly the number of pitch tokens (tokens opening with a letter a-g);
rest tokens such as "r4" and structural comments such as "%%%t" do not
open with such a letter and contribute zero. -/
theorem c6_plain_pitch_count (tokens : List String)
    (h : ∀ t ∈ tokens, lastCharIs t ')' = false ∧ lastCharIs t '(' = false ∧
      lastCharIs t '~' = false) :
    countSingableTokens tokens 0 = (tokens.filter pitchStart).length := by
  unfold countSingableTokens
  rw [countFold_plain tokens h 0]
  simp

/-- Claim C6, witness: a segment with two pitch tokens, a rest and a
structural comment counts 2. -/
theorem c6_plain_pitch_count_witness :
    countSingableTokens ["c4", "r4", "%%%t", "d4"] 0 =
      ((["c4", "r4", "%%%t", "d4"] : List String).filter pitchStart).length :=
  c6_plain_pitch_count ["c4", "r4", "%%%t", "d4"] (by decide)

/-- Claim C7 (confirmed).  The lyric normalizer walks tokens left to
right: a melisma-continuation marker is skipped with the state unchanged,
a join marker only sets the attach-next flag, an ordinary token is
attached to the previous word when the flag is set and otherwise starts a
new word; the marker tokens themselves are never emitted.  In particular
"Ma -- ry had a lit -- tle lamb" normalizes to "Mary had a little lamb". -/
theorem c7_lyric_normalize (s : LState) (t : String) (h1 : t ≠ "--") (h2 : t ≠ "__")
    (ws : List String) (w : String) :
    lyricStep s "__" = some s ∧
    lyricStep s "--" = some ⟨true, s.words⟩ ∧
    (s.joinNext = false → lyricStep s t = some ⟨false, s.words ++ [t]⟩) ∧
    lyricStep ⟨true, ws ++ [w]⟩ t = some ⟨false, ws ++ [w ++ t]⟩ ∧
    create_normal_lyrics "Ma -- ry had a lit -- tle lamb" = some "Mary had a little lamb" := by
  refine ⟨by simp [lyricStep], by simp [lyricStep], fun hj => ?_, ?_, by decide⟩
  · simp [lyricStep, h1, h2, hj]
  · simp [lyricStep, h1, h2, appendToLast_concat]

/-- Claim C7, witness: one concrete instance of each loop rule, plus the
concrete normalization. -/
theorem c7_lyric_normalize_witness :
    lyricStep ⟨false, ["hi"]⟩ "__" = some ⟨false, ["hi"]⟩ ∧
    lyricStep ⟨false, ["hi"]⟩ "--" = some ⟨true, ["hi"]⟩ ∧
    ((false : Bool) = false → lyricStep ⟨false, ["hi"]⟩ "x" = some ⟨false, ["hi"] ++ ["x"]⟩) ∧
    lyricStep ⟨true, ["a"] ++ ["b"]⟩ "x" = some ⟨false, ["a"] ++ ["b" ++ "x"]⟩ ∧
    create_normal_lyrics "Ma -- ry had a lit -- tle lamb" = some "Mary had a little lamb" :=
  c7_lyric_normalize ⟨false, ["hi"]⟩ "x" (by decide) (by decide) ["a"] "b"

/-- Claim C8, counterexample.  The claim says that when the requested
interval exceeds the available syllables, the recovery is reported to the
caller as a diagnostic.  create_lyric_slice returns nothing but the
joined string: the underflowing request for positions [0, 5) on the
two-syllable line "a b" returns exactly the same value as the in-range
request for [0, 2), so no diagnostic reaches the caller. -/
theorem c8_underflow_cex :
    create_lyric_slice "a b" 0 5 = "a b" ∧
    create_lyric_slice "a b" 0 2 = "a b" := by
  constructor
  · decide
  · decide

/-- Claim C8, amended.  When slice_end exceeds the number of syllable
positions, create_lyric_slice returns the longest available slice — every
token whose position is at least slice_start, through the end of the
line — and recovers silently: the plain string it returns carries no
diagnostic, being identical to the result of an exact request. -/
theorem c8_underflow_amended (tokens : List String) (s e : Nat)
    (h : countNonJoin tokens < e) :
    sliceGo s e tokens 0 =
      ((annotatePos tokens 0).filter (fun p => decide (s ≤ p.2))).map Prod.fst ∧
    create_lyric_slice "a b" 0 5 = create_lyric_slice "a b" 0 2 := by
  constructor
  · rw [sliceGo_eq_filter]
    congr 1
    apply List.filter_congr
    intro a ha
    have hle := annotatePos_pos_le tokens 0 a ha
    simp only [Nat.zero_add] at hle
    have hlt : a.2 < e := lt_of_le_of_lt hle h
    simp [hlt]
  · decide

/-- Claim C8, witness for the amended theorem, on a three-token line with
an embedded join marker and an over-long interval. -/
theorem c8_underflow_amended_witness :
    sliceGo 1 9 ["la", "--", "li"] 0 =
      ((annotatePos ["la", "--", "li"] 0).filter (fun p => decide (1 ≤ p.2))).map Prod.fst ∧
    create_lyric_slice "a b" 0 5 = create_lyric_slice "a b" 0 2 :=
  c8_underflow_amended ["la", "--", "li"] 1 9 (by decide)

/-- Claim C9, counterexample.  The claim says that the single-token
segment "c4(" with no matching close raises MalformedNotationError.  No
such error exists anywhere in choir2anki.py: count_singable_notes has no
raising statement at all, and on "c4(" it completes normally and returns
the plain count 1. -/
theorem c9_malformed_cex :
    count_singable_notes "c4(" 0 = 1 := by
  decide

/-- Claim C9, amended.  The repository defines no MalformedNotationError
and never checks balance: count_singable_notes is a total function that
returns only a count.  On the unbalanced segment "c4(" it returns 1,
leaving the unmatched depth 1 only in the discarded final loop state, and
on the unterminated tie "c4~" it returns 1, discarding the pending-tie
flag the same way.  (Only the external abjad parser, outside this
repository, could reject such input in create_normal_note_shards.) -/
theorem c9_malformed_amended :
    countFold ["c4("] ⟨0, 0, false⟩ = ⟨1, 1, false⟩ ∧
    countFold ["c4~"] ⟨0, 0, false⟩ = ⟨1, 0, true⟩ ∧
    count_singable_notes "c4(" 0 = 1 := by
  refine ⟨by decide, by decide, by decide⟩

/-- Claim C10 (confirmed).  If, after any run of leading
melisma-continuation markers, the lyric tokens open with a join marker
followed directly by an ordinary token, create_normal_lyrics crashes: the
ordinary token is attached to the last element of the still-empty word
list, Python raises IndexError, and the embedding returns none instead of
a word sequence. -/
theorem c10_ix_crash (pre : List String) (t : String) (post : List String)
    (hpre : ∀ x ∈ pre, x = "__") (h1 : t ≠ "--") (h2 : t ≠ "__") :
    normGoTokens ⟨false, []⟩ (pre ++ "--" :: t :: post) = none := by
  induction pre with
  | nil =>
    simp [normGoTokens, lyricStep, h1, h2, appendToLast]
  | cons x xs ih =>
    have hx : x = "__" := hpre x (List.mem_cons_self x xs)
    have hxs : ∀ y ∈ xs, y = "__" := fun y hy => hpre y (List.mem_cons_of_mem x hy)
    subst hx
    simpa [normGoTokens, lyricStep] using ih hxs

/-- Claim C10, witness: the input tokens of "__ -- x y" crash the
normalizer. -/
theorem c10_ix_crash_witness :
    normGoTokens ⟨false, []⟩ (["__"] ++ "--" :: "x" :: ["y"]) = none :=
  c10_ix_crash ["__"] "x" ["y"] (by decide) (by decide) (by decide)
